import Mathlib

/-!
Verification of the generic CRUD core of the boilerplate-fast-api repository:
a shallow embedding of `src/utils/exceptions.py`, `src/data_services/crud.py`,
`src/data_services/filters.py`, `src/services/base_service.py`,
`src/models/user.py`, `src/mappers/user.py` and the entity definitions in
`src/database/entities/`, together with theorems about pagination, filtering,
sort-name resolution, partial updates and the Result-based error translation.
-/

namespace Boilerplate

/-! ## Exception taxonomy (src/utils/exceptions.py)

`exceptions.py` declares three exception classes:
`CrudError(Exception)`, `CrudIntegrityError(CrudError)`,
`CrudUniqueValidationError(CrudIntegrityError)`.  A source comment on
`CrudError` records that the class was renamed from `CrudException`. -/

inductive CrudErrorClass where
  | crudError
  | crudIntegrityError
  | crudUniqueValidationError
deriving DecidableEq, Repr

/-- Immediate base class of each class in `exceptions.py`
(`none` = the class derives directly from the builtin `Exception`). -/
def CrudErrorClass.base? : CrudErrorClass → Option CrudErrorClass
  | .crudError => none
  | .crudIntegrityError => some .crudError
  | .crudUniqueValidationError => some .crudIntegrityError

/-- Python `issubclass` on the hierarchy declared in `exceptions.py`
(reflexive-transitive closure of the base-class edges). -/
def CrudErrorClass.isSubclassOf : CrudErrorClass → CrudErrorClass → Bool
  | .crudError, .crudError => true
  | .crudError, _ => false
  | .crudIntegrityError, .crudUniqueValidationError => false
  | .crudIntegrityError, _ => true
  | .crudUniqueValidationError, _ => true

/-- The names bound at module level by `src/utils/exceptions.py`. -/
def exceptionsModuleNames : List String :=
  ["CrudError", "CrudIntegrityError", "CrudUniqueValidationError"]

/-- The names `src/data_services/crud.py` line 16 imports from
`src.utils.exceptions`
(`from src.utils.exceptions import CrudException, CrudIntegrityError,
CrudUniqueValidationError`). -/
def crudImportedExceptionNames : List String :=
  ["CrudException", "CrudIntegrityError", "CrudUniqueValidationError"]

/-- The names `src/services/base_service.py` line 13 imports from
`src.utils.exceptions`. -/
def baseServiceImportedExceptionNames : List String :=
  ["CrudException", "CrudUniqueValidationError"]

/-! ## Data model (src/database/entities/, src/models/user.py)

`UserEntity` (src/database/entities/user.py) extends `Base` and
`BaseAuditEntity` (src/database/entities/base.py).  UUIDs are modelled as
naturals, timestamps as naturals; `created_date` / `last_modified_date` are
`Option` because the SQLAlchemy column defaults (`default=utc_now`,
`onupdate=utc_now`) are only applied by the store on flush, not at object
construction. -/

abbrev UUID := Nat

structure UserEntity where
  id : UUID
  first_name : String
  last_name : String
  username : String
  email : String
  is_active : Bool
  created_date : Option Nat
  last_modified_date : Option Nat
  created_by_user_id : String
  last_modified_by_user_id : String
deriving DecidableEq, Repr

/-- Model of `UserCreate` (src/models/user.py). -/
structure UserCreate where
  first_name : String
  last_name : String
  username : String
  email : String
  is_active : Bool := true
deriving DecidableEq, Repr

/-- Model of `UserUpdate` (src/models/user.py): a pydantic model whose string fields
default to `""` and `is_active` to `true`.  Pydantic tracks which fields were
explicitly passed at construction in `model_fields_set`; `fields_set` models
that set. -/
structure UserUpdate where
  first_name : String := ""
  last_name : String := ""
  username : String := ""
  email : String := ""
  is_active : Bool := true
  fields_set : List String := []
deriving DecidableEq, Repr

/-- The dictionary produced by `update_model.model_dump(exclude_unset=True)`:
each field is present (`some`) exactly when it was explicitly set. -/
structure UserUpdateDump where
  first_name : Option String
  last_name : Option String
  username : Option String
  email : Option String
  is_active : Option Bool
deriving DecidableEq, Repr

/-- Pydantic `model_dump(exclude_unset=True)` for `UserUpdate`: fields absent
from `fields_set` are dropped from the dump even though they carry default
values (empty strings, `true`). -/
def UserUpdate.model_dump_exclude_unset (u : UserUpdate) : UserUpdateDump where
  first_name := if u.fields_set.contains "first_name" then some u.first_name else none
  last_name := if u.fields_set.contains "last_name" then some u.last_name else none
  username := if u.fields_set.contains "username" then some u.username else none
  email := if u.fields_set.contains "email" then some u.email else none
  is_active := if u.fields_set.contains "is_active" then some u.is_active else none

/-- Number of fields present in a dump. -/
def UserUpdateDump.setCount (d : UserUpdateDump) : Nat :=
  d.first_name.toList.length + d.last_name.toList.length + d.username.toList.length
    + d.email.toList.length + d.is_active.toList.length

/-! ## Mapper (src/mappers/user.py)

`to_user_entity(model, user_id)` constructs a `UserEntity` with
`id=uuid.uuid4()`, copies the four string fields and `is_active` from the
model, and sets both audit user ids to `user_id`.  The fresh random UUID drawn
by `uuid.uuid4()` is made explicit as the `uuid4` argument; `UuidGen` models
the generator behind `uuid.uuid4()` as a stream whose successive draws are
distinct (the property version-4 random UUIDs provide). -/

def to_user_entity (uuid4 : UUID) (model : UserCreate) (user_id : String) : UserEntity where
  id := uuid4
  first_name := model.first_name
  last_name := model.last_name
  username := model.username
  email := model.email
  is_active := model.is_active
  created_date := none
  last_modified_date := none
  created_by_user_id := user_id
  last_modified_by_user_id := user_id

structure UuidGen where
  counter : Nat
deriving DecidableEq, Repr

/-- Draw a fresh UUID: successive draws are pairwise distinct. -/
def UuidGen.next (g : UuidGen) : UUID × UuidGen :=
  (g.counter, ⟨g.counter + 1⟩)

/-- One invocation of `to_user_entity` as executed inside `Crud._create`:
it draws from the `uuid.uuid4()` generator and builds the entity. -/
def to_user_entity_call (g : UuidGen) (model : UserCreate) (user_id : String) :
    UserEntity × UuidGen :=
  let (u, g') := g.next
  (to_user_entity u model user_id, g')

/-! ## Query statements and filters (src/data_services/filters.py)

A filter's `apply(stmt)` adds one WHERE criterion to a select / exists /
delete statement.  A criterion is either a single boolean expression
(`stmt.where(cond)`) or the `BooleanClauseList` built by
`stmt.where(or_(*conditions))`.  SQLAlchemy semantics of the clause list:
`or_()` invoked with zero clauses is the deprecated empty construct that
"generates nothing unless it has elements added to it" — the criterion emits
no SQL and therefore restricts nothing; with at least one clause it is the
disjunction of its members. -/

inductive BoolClause (E : Type) where
  | pred (p : E → Bool)
  | orList (ps : List (E → Bool))

/-- Whether a row satisfies one WHERE criterion (see the `or_` semantics
above: an empty `orList` compiles to no condition, hence holds). -/
def BoolClause.holds : BoolClause E → E → Bool
  | .pred p, r => p r
  | .orList [], _ => true
  | .orList ps, r => ps.any (fun p => p r)

/-- A SQLAlchemy `Select` statement over entity type `E`, with the parts the
Crud layer manipulates: WHERE criteria, ORDER BY comparator, LIMIT, OFFSET. -/
structure SelectStmt (E : Type) where
  wheres : List (BoolClause E) := []
  order : Option (E → E → Bool) := none
  limit : Option Nat := none
  offset : Option Nat := none

/-- Model of `stmt.where(criterion)`. -/
def SelectStmt.whereAdd (s : SelectStmt E) (c : BoolClause E) : SelectStmt E :=
  { s with wheres := s.wheres ++ [c] }

/-- A `Delete` statement (`delete(entity)`): only WHERE criteria matter. -/
structure DeleteStmt (E : Type) where
  wheres : List (BoolClause E) := []

def DeleteStmt.whereAdd (s : DeleteStmt E) (c : BoolClause E) : DeleteStmt E :=
  { s with wheres := s.wheres ++ [c] }

/-- A row matches a statement's WHERE clause when it satisfies every
criterion (criteria combine by conjunction). -/
def matchesWheres (cs : List (BoolClause E)) (r : E) : Bool :=
  cs.all (fun c => c.holds r)

/-- Insertion step of the ORDER BY model. -/
def insertLe (le : E → E → Bool) (a : E) : List E → List E
  | [] => [a]
  | b :: bs => if le a b then a :: b :: bs else b :: insertLe le a bs

/-- Deterministic model of SQL ORDER BY: sort the rows by the comparator
(insertion sort, a permutation of its input). -/
def orderByLe (le : E → E → Bool) : List E → List E
  | [] => []
  | a :: as => insertLe le a (orderByLe le as)

/-- Executing a select against the store's rows: WHERE, then ORDER BY, then
OFFSET, then LIMIT — the evaluation order of the SQL clauses the statement
compiles to. -/
def runSelect (s : SelectStmt E) (rows : List E) : List E :=
  let matched := rows.filter (matchesWheres s.wheres)
  let sorted := match s.order with
    | none => matched
    | some le => orderByLe le matched
  let offs := match s.offset with
    | none => sorted
    | some o => sorted.drop o
  match s.limit with
  | none => offs
  | some l => offs.take l

/-- Executing `select(func.count()).select_from(entity)` with the statement's
WHERE criteria. -/
def runCount (s : SelectStmt E) (rows : List E) : Nat :=
  (rows.filter (matchesWheres s.wheres)).length

/-- Executing a delete: the rows remaining in the store afterwards. -/
def runDelete (s : DeleteStmt E) (rows : List E) : List E :=
  rows.filter (fun r => !matchesWheres s.wheres r)

/-- Model of `EqualsFilter`: `stmt.where(field == value)`. -/
structure EqualsFilter (E α : Type) where
  field : E → α
  value : α

def EqualsFilter.clause [BEq α] (f : EqualsFilter E α) : BoolClause E :=
  .pred (fun r => f.field r == f.value)

/-- Model of `NotEqualsFilter`: `stmt.where(field != value)`. -/
structure NotEqualsFilter (E α : Type) where
  field : E → α
  value : α

def NotEqualsFilter.clause [BEq α] (f : NotEqualsFilter E α) : BoolClause E :=
  .pred (fun r => f.field r != f.value)

/-- Model of `AnyFromListFilter`: the field is array-typed (`E → List α`);
`apply` builds `conditions = [field.any(value) for value in self.value]` and
adds `stmt.where(or_(*conditions))`.  `field.any(v)` on a PostgreSQL ARRAY
column holds when `v` is a member of the row's array. -/
structure AnyFromListFilter (E α : Type) where
  field : E → List α
  value : List α

def AnyFromListFilter.clause [BEq α] (f : AnyFromListFilter E α) : BoolClause E :=
  .orList (f.value.map (fun v => fun r => (f.field r).contains v))

/-- Model of `RelatedEntityFilter`: the field is a relationship collection, modelled by
the ids of the related entities (`E → List UUID`); `apply` builds
`conditions = [field.any(id=rid) for rid in related_entity_ids]` and adds
`stmt.where(or_(*conditions))`. -/
structure RelatedEntityFilter (E : Type) where
  field : E → List UUID
  related_entity_ids : List UUID

def RelatedEntityFilter.clause (f : RelatedEntityFilter E) : BoolClause E :=
  .orList (f.related_entity_ids.map (fun rid => fun r => (f.field r).contains rid))

/-! ## Sort-name normalisation (pydantic.alias_generators.to_snake)

`Crud._apply_params` resolves `sort_by` with
`getattr(self.entity_type, to_snake(sort_by))`.  Pydantic's `to_snake` is a
sequence of four regex substitutions, a hyphen replacement and lowercasing.
Each substitution scans left to right over non-overlapping matches; on the
ASCII identifiers involved the passes are equivalent to the positional
insertion rules implemented below (a resumed scan can never re-match a
consumed character, because every match ends in a character that cannot start
a new one). -/

/-- Pass 1, pattern `([A-Z]+)([A-Z][a-z])`: an underscore lands before the
last upper-case letter of an upper-case run of length at least two that is
followed by a lower-case letter. -/
def snakeSub1 : List Char → List Char
  | a :: b :: c :: rest =>
    if a.isUpper && b.isUpper && c.isLower then a :: '_' :: snakeSub1 (b :: c :: rest)
    else a :: snakeSub1 (b :: c :: rest)
  | other => other

/-- Pass 2, pattern `([a-z])([A-Z])`: an underscore lands between a
lower-case letter and an upper-case letter. -/
def snakeSub2 : List Char → List Char
  | a :: b :: rest =>
    if a.isLower && b.isUpper then a :: '_' :: snakeSub2 (b :: rest)
    else a :: snakeSub2 (b :: rest)
  | other => other

/-- Pass 3, pattern `([0-9])([A-Z])`. -/
def snakeSub3 : List Char → List Char
  | a :: b :: rest =>
    if a.isDigit && b.isUpper then a :: '_' :: snakeSub3 (b :: rest)
    else a :: snakeSub3 (b :: rest)
  | other => other

/-- Pass 4, pattern `([a-z])([0-9])`. -/
def snakeSub4 : List Char → List Char
  | a :: b :: rest =>
    if a.isLower && b.isDigit then a :: '_' :: snakeSub4 (b :: rest)
    else a :: snakeSub4 (b :: rest)
  | other => other

/-- Model of `pydantic.alias_generators.to_snake`: the four substitution passes, then
`replace('-', '_')`, then `lower()`. -/
def to_snake (s : String) : String :=
  let cs := snakeSub4 (snakeSub3 (snakeSub2 (snakeSub1 s.toList)))
  String.mk (cs.map (fun c => if c = '-' then '_' else c.toLower))

/-- Model of the `SortDirection` enum.  Modelled from the spec: the file
`src/models/enums/sort_direction.py` is referenced by crud.py, the user
router and the user service but is absent from the snapshot; the spec fixes
its two members, ascending (the default) and descending. -/
inductive SortDirection where
  | ascending
  | descending
deriving DecidableEq, Repr

/-! ## Generic data-access layer (src/data_services/crud.py) -/

/-- Model of `calculate_offset` (crud.py line 21). -/
def calculate_offset (page_number page_size : Nat) : Nat :=
  (page_number - 1) * page_size

-- crud.py uses these defaults from src/constants/__init__.py.
def DEFAULT_PAGE_NUMBER : Nat := 1
def DEFAULT_PAGE_SIZE : Nat := 10

/-- The part of a SQLAlchemy entity class that `Crud` touches: its `__name__`
and its attribute namespace restricted to mapped columns, each column giving
the comparison `asc(column)` orders by (`getattr` on a missing name raises
`AttributeError`, hence `Option`). -/
structure EntityMeta (E : Type) where
  name : String
  attr : String → Option (E → E → Ordering)

/-- Sort direction handling: `desc(col)` reverses the comparison of `asc(col)`; the resulting boolean
comparator feeds the ORDER BY model. -/
def sortLe (cmp : E → E → Ordering) (dir : SortDirection) : E → E → Bool :=
  match dir with
  | .ascending => fun a b => cmp a b ≠ .gt
  | .descending => fun a b => cmp b a ≠ .gt

/-- Model of `Crud._apply_params` (crud.py lines 81-102): pagination is applied to the
data statement only when `omit_pagination` is false; every filter is applied
to both statements; `sort_by` (when truthy) is resolved through `to_snake`
against the entity's attributes and sets ORDER BY with the requested
direction.  `none` is the `AttributeError` escaping from `getattr` for an
unresolvable name (caught by `get_by_page` and wrapped). -/
def Crud.apply_params (meta : EntityMeta E) (stmt count_stmt : SelectStmt E)
    (page_number : Nat := DEFAULT_PAGE_NUMBER) (page_size : Nat := DEFAULT_PAGE_SIZE)
    (omit_pagination : Bool := false) (filters : List (BoolClause E) := [])
    (sort_by : Option String := none) (sort_direction : SortDirection := .ascending) :
    Option (SelectStmt E × SelectStmt E) :=
  let stmt := if !omit_pagination then
      { stmt with limit := some page_size, offset := some (calculate_offset page_number page_size) }
    else stmt
  let stmt := { stmt with wheres := stmt.wheres ++ filters }
  let count_stmt := { count_stmt with wheres := count_stmt.wheres ++ filters }
  match sort_by with
  | some s =>
    if s ≠ "" then
      match meta.attr (to_snake s) with
      | some cmp =>
        let dirLe := sortLe cmp sort_direction
        some ({ stmt with order := some dirLe }, count_stmt)
      | none => none
    else some (stmt, count_stmt)
  | none => some (stmt, count_stmt)

/-- Model of `Crud.get_by_page` (crud.py lines 104-126) run against the store's rows:
builds the data and count statements, applies the parameters, executes both
and returns `(entities, total)`.  Any fault — here, the unresolvable sort
name — is wrapped into the crud-level error message. -/
def Crud.get_by_page (meta : EntityMeta E) (rows : List E)
    (page_number : Nat := DEFAULT_PAGE_NUMBER) (page_size : Nat := DEFAULT_PAGE_SIZE)
    (omit_pagination : Bool := false) (filters : List (BoolClause E) := [])
    (sort_by : Option String := none) (sort_direction : SortDirection := .ascending) :
    Except String (List E × Nat) :=
  match Crud.apply_params meta {} {} page_number page_size omit_pagination filters
      sort_by sort_direction with
  | some (stmt, count_stmt) => .ok (runSelect stmt rows, runCount count_stmt rows)
  | none => .error ("Failed to retrieve multiple entities " ++ meta.name
      ++ " with params: page_number=" ++ toString page_number ++ ", page_size="
      ++ toString page_size ++ " omit_pagination="
      ++ (if omit_pagination then "True" else "False"))

/-! ### The user entity's attribute table (src/database/entities/user.py) -/

/-- The mapped columns of `UserEntity` (its own plus the audit columns mixed
in from `BaseAuditEntity`). -/
inductive UserField where
  | id | first_name | last_name | username | email
  | is_active | created_date | last_modified_date
  | created_by_user_id | last_modified_by_user_id
deriving DecidableEq, Repr

/-- The snake_case attribute name of each column, exactly as declared in the
entity classes. -/
def UserField.snakeName : UserField → String
  | .id => "id"
  | .first_name => "first_name"
  | .last_name => "last_name"
  | .username => "username"
  | .email => "email"
  | .is_active => "is_active"
  | .created_date => "created_date"
  | .last_modified_date => "last_modified_date"
  | .created_by_user_id => "created_by_user_id"
  | .last_modified_by_user_id => "last_modified_by_user_id"

/-- Comparison by the column's value (the ordering `asc(column)` induces). -/
def UserField.cmp : UserField → UserEntity → UserEntity → Ordering
  | .id => fun a b => compare a.id b.id
  | .first_name => fun a b => compare a.first_name b.first_name
  | .last_name => fun a b => compare a.last_name b.last_name
  | .username => fun a b => compare a.username b.username
  | .email => fun a b => compare a.email b.email
  | .is_active => fun a b => compare a.is_active b.is_active
  | .created_date => fun a b => compare a.created_date b.created_date
  | .last_modified_date => fun a b => compare a.last_modified_date b.last_modified_date
  | .created_by_user_id => fun a b => compare a.created_by_user_id b.created_by_user_id
  | .last_modified_by_user_id => fun a b => compare a.last_modified_by_user_id b.last_modified_by_user_id

/-- All columns of `UserEntity`. -/
def UserField.all : List UserField :=
  [.id, .first_name, .last_name, .username, .email, .is_active,
   .created_date, .last_modified_date, .created_by_user_id, .last_modified_by_user_id]

/-- Model of `getattr(UserEntity, name)` restricted to the mapped columns. -/
def userMeta : EntityMeta UserEntity where
  name := "UserEntity"
  attr := fun n => (UserField.all.find? (fun f => f.snakeName = n)).map UserField.cmp

/-! ### Update semantics (crud.py `_update`, entities/base.py audit columns)

`Crud._update` executes
`update(entity).where(id == entity_id)
  .values(last_modified_by_user_id=user_id, **update_model.model_dump(exclude_unset=True))`.
The SET clause therefore holds exactly the explicitly-set model fields plus
`last_modified_by_user_id`; every row matching the id is rewritten, and the
`onupdate=utc_now` column default declared on `last_modified_date` in
`BaseAuditEntity` re-stamps that column (it is absent from the SET clause).
`now` is the timestamp `utc_now` returns during the statement. -/

def updateValues (d : UserUpdateDump) (user_id : String) (now : Nat)
    (e : UserEntity) : UserEntity :=
  { e with
    first_name := d.first_name.getD e.first_name
    last_name := d.last_name.getD e.last_name
    username := d.username.getD e.username
    email := d.email.getD e.email
    is_active := d.is_active.getD e.is_active
    last_modified_by_user_id := user_id
    last_modified_date := some now }

/-- The store's rows after `Crud._update(entity_id, update_model, user_id)`:
rows whose id matches are rewritten per the UPDATE statement, all others are
untouched. -/
def Crud.update_rows (rows : List UserEntity) (entity_id : UUID)
    (update_model : UserUpdate) (user_id : String) (now : Nat) : List UserEntity :=
  rows.map (fun e =>
    if e.id = entity_id then
      updateValues update_model.model_dump_exclude_unset user_id now e
    else e)

/-! ## Crud failure classification (crud.py)

The underlying store can fail a call with a SQLAlchemy `IntegrityError`
carrying the driver exception in `e.orig`, or with any other exception.
`create` and `update` distinguish `psycopg2.errors.UniqueViolation` origs;
the asyncpg driver configured in `src/config/config.py` /
`src/database/db_engine.py` (`postgresql+asyncpg`) signals uniqueness
violations with `asyncpg.exceptions.UniqueViolationError` instead, which the
repository's own test `test_create__crud_unique_validation_error` feeds to
`create`. -/

inductive OrigErr where
  | psycopg2UniqueViolation
  | asyncpgUniqueViolationError
  | otherDriverError
deriving DecidableEq, Repr

inductive PyStoreExc where
  | integrityError (orig : OrigErr)
  | otherExc
deriving DecidableEq, Repr

/-- Model of `isinstance(e.orig, psycopg2.errors.UniqueViolation)` (crud.py lines
151 and 179). -/
def origIsPsycopg2UniqueViolation : OrigErr → Bool
  | .psycopg2UniqueViolation => true
  | _ => false

/-- A raised crud-layer exception: its class and its `str(e)` message.
crud.py raises the generic kind under the name `CrudException`; the class the
name refers to is the one `exceptions.py` declares as `CrudError` (renamed,
per its source comment). -/
structure CrudExc where
  cls : CrudErrorClass
  msg : String
deriving DecidableEq, Repr

/-- Message of crud.py lines 45, 66 and 77 (identity-keyed operations). -/
def crudIdFailMsg (verb entityName : String) (entity_id : UUID) : String :=
  "Failed to " ++ verb ++ " " ++ entityName ++ " with id " ++ toString entity_id

/-- Model of `Crud.entity_exists` (crud.py lines 40-47) over the ids present in the
store; `fault` is the exception, if any, the store raises during execution —
`except Exception` wraps every one of them into the generic kind. -/
def Crud.entity_exists (entityName : String) (ids : List UUID)
    (fault : Option PyStoreExc) (entity_id : UUID) : Except CrudExc Bool :=
  match fault with
  | some _ => .error ⟨.crudError,
      "Failed to check if entity " ++ entityName ++ " with id " ++ toString entity_id
        ++ " exists"⟩
  | none => .ok (ids.contains entity_id)

/-- Model of `Crud.get_by_id` (crud.py lines 70-79): `first()` on the matching rows,
absent row giving `none`, any store fault giving the generic kind. -/
def Crud.get_by_id (entityName : String) (rows : List UserEntity)
    (fault : Option PyStoreExc) (entity_id : UUID) : Except CrudExc (Option UserEntity) :=
  match fault with
  | some _ => .error ⟨.crudError, crudIdFailMsg "retrieve" entityName entity_id⟩
  | none => .ok (rows.find? (fun e => e.id = entity_id))

/-- Failure classification of `Crud.create` (crud.py lines 141-157):
an `IntegrityError` whose orig is a psycopg2 `UniqueViolation` becomes
`CrudUniqueValidationError`, any other `IntegrityError` becomes
`CrudIntegrityError`, and any other exception becomes the generic kind.
`createParams` is the repr of the create model interpolated into the
messages. -/
def Crud.create (entityName createParams : String) (fault : Option PyStoreExc)
    (new_entity : UserEntity) : Except CrudExc UserEntity :=
  match fault with
  | none => .ok new_entity
  | some (.integrityError orig) =>
    let msg := "Failed to create new entity " ++ entityName ++ " with params: create_model="
      ++ createParams ++ " due to IntegrityError"
    if origIsPsycopg2UniqueViolation orig then .error ⟨.crudUniqueValidationError, msg⟩
    else .error ⟨.crudIntegrityError, msg⟩
  | some .otherExc => .error ⟨.crudError,
      "Failed to create new entity " ++ entityName ++ " with params: create_model="
        ++ createParams⟩

/-- Failure classification of `Crud.update` (crud.py lines 169-185), the same
taxonomy as `create`.  On success the row is re-fetched by `_get_one`; when
the id matches no row, `_get_one`'s `one()` raises, its wrapper
`CrudException` is itself an `Exception`, and `update`'s final
`except Exception` re-wraps it into the update failure message. -/
def Crud.update (entityName updateParams : String) (rows : List UserEntity)
    (fault : Option PyStoreExc) (entity_id : UUID) (update_model : UserUpdate)
    (user_id : String) (now : Nat) : Except CrudExc (UserEntity × List UserEntity) :=
  match fault with
  | none =>
    let rows := Crud.update_rows rows entity_id update_model user_id now
    match rows.find? (fun e => e.id = entity_id) with
    | some e => .ok (e, rows)
    | none => .error ⟨.crudError,
        "Failed to update entity " ++ entityName ++ " " ++ toString entity_id
          ++ " with params: update_model=" ++ updateParams⟩
  | some (.integrityError orig) =>
    let msg := "Failed to update entity " ++ entityName ++ " " ++ toString entity_id
      ++ " with params: update_model=" ++ updateParams ++ " due to IntegrityError"
    if origIsPsycopg2UniqueViolation orig then .error ⟨.crudUniqueValidationError, msg⟩
    else .error ⟨.crudIntegrityError, msg⟩
  | some .otherExc => .error ⟨.crudError,
      "Failed to update entity " ++ entityName ++ " " ++ toString entity_id
        ++ " with params: update_model=" ++ updateParams⟩

/-- Model of `Crud.delete` (crud.py lines 187-195): deletes by id, a no-op when the id
is absent; any store fault becomes the generic kind. -/
def Crud.delete (entityName : String) (rows : List UserEntity)
    (fault : Option PyStoreExc) (entity_id : UUID) : Except CrudExc (List UserEntity) :=
  match fault with
  | some _ => .error ⟨.crudError,
      "Failed to delete entity " ++ entityName ++ " " ++ toString entity_id⟩
  | none => .ok (rows.filter (fun e => e.id ≠ entity_id))

/-! ## Result-based service layer (src/services/base_service.py)

The `result` library's outcome type, the service error statuses
(src/models/enums/error_status.py) and `ErrorResult`
(src/models/error_result.py). -/

inductive Result (α ε : Type) where
  | Ok (v : α)
  | Err (e : ε)
deriving DecidableEq, Repr

inductive ErrorStatus where
  | NOT_FOUND_ERROR
  | BAD_REQUEST
  | CONFLICT
  | INTERNAL_ERROR
deriving DecidableEq, Repr

structure ErrorResult where
  status : ErrorStatus
  details : String
deriving DecidableEq, Repr

/-- Model of `ModelList` (src/models/base.py). -/
structure ModelList (M : Type) where
  items : List M
  total : Nat
deriving DecidableEq, Repr

/-- The per-service configuration a `BaseService` subclass supplies: the
model class (its `__name__` and its `model_validate`) and the two
customizable uniqueness-conflict message templates, each a function of the
model class name (Python keeps them as format strings and interpolates the
name with `.format`). -/
structure BaseServiceCfg (M : Type) where
  model_class_name : String
  CREATE_UNIQUE_VALIDATION_MSG : String → String := fun _ => "Unknown CrudUniqueValidationError"
  UPDATE_UNIQUE_VALIDATION_MSG : String → String := fun _ => "Unknown CrudUniqueValidationError"
  model_validate : UserEntity → M

/-- Model of `GET_BY_ID_NOT_FOUND_MSG.format(model_class=..., id=...)` for the
template `"{model_class} with id {id} not found"` of base_service.py
line 19. -/
def get_by_id_not_found_msg (model_class id : String) : String :=
  model_class ++ " with id " ++ id ++ " not found"

/-- Model of `build_create_crud_unique_validation_error_msg` (base_service.py lines
35-38). -/
def build_create_crud_unique_validation_error_msg (cfg : BaseServiceCfg M) : String :=
  "Failed to create new " ++ cfg.model_class_name ++ " - "
    ++ cfg.CREATE_UNIQUE_VALIDATION_MSG cfg.model_class_name

/-- Model of `build_update_crud_unique_validation_error_msg` (base_service.py lines
40-43). -/
def build_update_crud_unique_validation_error_msg (cfg : BaseServiceCfg M)
    (entity_id : UUID) : String :=
  "Failed to update " ++ cfg.model_class_name ++ " with id " ++ toString entity_id
    ++ " - " ++ cfg.UPDATE_UNIQUE_VALIDATION_MSG cfg.model_class_name

/-- Python exception propagation at the service boundary: the service bodies
catch `except CrudUniqueValidationError` / `except CrudException` by
`isinstance`; an exception matching no clause escapes the operation
(`Except.error` in the outer layer). -/
abbrev ServiceOutcome (α : Type) := Except CrudExc (Result α ErrorResult)

/-- Model of `BaseService.get_page` (base_service.py lines 45-64): delegates to
`Crud.get_by_page` (its result is `page_result`), maps entities through the
model class, and converts a caught `CrudException` into
`Err(InternalError, str(e))`. -/
def BaseService.get_page (cfg : BaseServiceCfg M)
    (page_result : Except CrudExc (List UserEntity × Nat)) : ServiceOutcome (ModelList M) :=
  match page_result with
  | .error e =>
    if e.cls.isSubclassOf .crudError then .ok (.Err ⟨.INTERNAL_ERROR, e.msg⟩)
    else .error e
  | .ok (entities, total) => .ok (.Ok ⟨entities.map cfg.model_validate, total⟩)

/-- Model of `BaseService.get_by_id` (base_service.py lines 66-78). -/
def BaseService.get_by_id (cfg : BaseServiceCfg M) (entity_id : UUID)
    (fetch_result : Except CrudExc (Option UserEntity)) : ServiceOutcome M :=
  match fetch_result with
  | .error e =>
    if e.cls.isSubclassOf .crudError then .ok (.Err ⟨.INTERNAL_ERROR, e.msg⟩)
    else .error e
  | .ok none => .ok (.Err ⟨.NOT_FOUND_ERROR,
      get_by_id_not_found_msg cfg.model_class_name (toString entity_id)⟩)
  | .ok (some e) => .ok (.Ok (cfg.model_validate e))

/-- Model of `BaseService.create` (base_service.py lines 80-99):
`except CrudUniqueValidationError` yields `Err(Conflict)` with the
per-service message, `except CrudException` yields `Err(InternalError)`. -/
def BaseService.create (cfg : BaseServiceCfg M)
    (create_result : Except CrudExc UserEntity) : ServiceOutcome M :=
  match create_result with
  | .error e =>
    if e.cls.isSubclassOf .crudUniqueValidationError then
      .ok (.Err ⟨.CONFLICT, build_create_crud_unique_validation_error_msg cfg⟩)
    else if e.cls.isSubclassOf .crudError then
      .ok (.Err ⟨.INTERNAL_ERROR, e.msg⟩)
    else .error e
  | .ok e => .ok (.Ok (cfg.model_validate e))

/-- Model of `BaseService.update` (base_service.py lines 101-134): first
`Crud.entity_exists` (`exists_result`); a nonexistent id short-circuits to
`Err(NotFound)` without invoking `Crud.update`, whose result
(`update_result`) is consulted only on the exists-true path. -/
def BaseService.update (cfg : BaseServiceCfg M) (entity_id : UUID)
    (exists_result : Except CrudExc Bool)
    (update_result : Except CrudExc (UserEntity × List UserEntity)) : ServiceOutcome M :=
  match exists_result with
  | .error e =>
    if e.cls.isSubclassOf .crudError then .ok (.Err ⟨.INTERNAL_ERROR, e.msg⟩)
    else .error e
  | .ok false => .ok (.Err ⟨.NOT_FOUND_ERROR,
      get_by_id_not_found_msg cfg.model_class_name (toString entity_id)⟩)
  | .ok true =>
    match update_result with
    | .error e =>
      if e.cls.isSubclassOf .crudUniqueValidationError then
        .ok (.Err ⟨.CONFLICT, build_update_crud_unique_validation_error_msg cfg entity_id⟩)
      else if e.cls.isSubclassOf .crudError then
        .ok (.Err ⟨.INTERNAL_ERROR, e.msg⟩)
      else .error e
    | .ok (e, _) => .ok (.Ok (cfg.model_validate e))

/-- Model of `BaseService.delete` (base_service.py lines 136-154): existence
pre-check, then `Crud.delete`; success is `Ok(None)`. -/
def BaseService.delete (cfg : BaseServiceCfg M) (entity_id : UUID)
    (exists_result : Except CrudExc Bool)
    (delete_result : Except CrudExc (List UserEntity)) : ServiceOutcome Unit :=
  match exists_result with
  | .error e =>
    if e.cls.isSubclassOf .crudError then .ok (.Err ⟨.INTERNAL_ERROR, e.msg⟩)
    else .error e
  | .ok false => .ok (.Err ⟨.NOT_FOUND_ERROR,
      get_by_id_not_found_msg cfg.model_class_name (toString entity_id)⟩)
  | .ok true =>
    match delete_result with
    | .error e =>
      if e.cls.isSubclassOf .crudError then .ok (.Err ⟨.INTERNAL_ERROR, e.msg⟩)
      else .error e
    | .ok _ => .ok (.Ok ())

/-- Model of `BaseService.entity_exists` (base_service.py lines 156-168). -/
def BaseService.entity_exists (cfg : BaseServiceCfg M) (entity_id : UUID)
    (exists_result : Except CrudExc Bool) : ServiceOutcome Unit :=
  match exists_result with
  | .error e =>
    if e.cls.isSubclassOf .crudError then .ok (.Err ⟨.INTERNAL_ERROR, e.msg⟩)
    else .error e
  | .ok false => .ok (.Err ⟨.NOT_FOUND_ERROR,
      get_by_id_not_found_msg cfg.model_class_name (toString entity_id)⟩)
  | .ok true => .ok (.Ok ())

/-- Model of `User` output model (src/models/user.py): the fields `model_validate`
carries over from the entity. -/
structure UserModel where
  id : UUID
  first_name : String
  last_name : String
  username : String
  email : String
  is_active : Bool
deriving DecidableEq, Repr

/-- The `UserService` configuration (src/services/user_service.py):
`model_class = User` and the overridden uniqueness-conflict templates
`"{model_class} with given username or email already exists"`. -/
def userServiceCfg : BaseServiceCfg UserModel where
  model_class_name := "User"
  CREATE_UNIQUE_VALIDATION_MSG := fun mc => mc ++ " with given username or email already exists"
  UPDATE_UNIQUE_VALIDATION_MSG := fun mc => mc ++ " with given username or email already exists"
  model_validate := fun e =>
    ⟨e.id, e.first_name, e.last_name, e.username, e.email, e.is_active⟩

/-! ## Theorems -/

/-- Claim C8: for every row and value list `[x, y]`, the `AnyFromList` filter
matches the row exactly when the row's array field contains `x` OR contains
`y` (an OR across per-value membership checks; containing both is not
required), and a select qualified by the filter returns exactly the rows
satisfying that disjunction. -/
theorem anyFromList_pair_matches_or {E α : Type} [BEq α]
    (field : E → List α) (x y : α) (rows : List E) :
    (∀ r : E, (AnyFromListFilter.mk field [x, y]).clause.holds r
      = ((field r).contains x || (field r).contains y))
    ∧ runSelect (({} : SelectStmt E).whereAdd (AnyFromListFilter.mk field [x, y]).clause) rows
      = rows.filter (fun r => (field r).contains x || (field r).contains y) := by
  have hpt : ∀ r : E, (AnyFromListFilter.mk field [x, y]).clause.holds r
      = ((field r).contains x || (field r).contains y) := by
    intro r
    simp [AnyFromListFilter.clause, BoolClause.holds]
  have hw : matchesWheres [(AnyFromListFilter.mk field [x, y]).clause]
      = fun r => ((field r).contains x || (field r).contains y) := by
    funext r
    simp [matchesWheres, hpt r]
  refine ⟨hpt, ?_⟩
  simp [runSelect, SelectStmt.whereAdd, hw]

/-- A row type with an array-typed column and a relationship collection,
used to evaluate the filters on a concrete store. -/
structure TagRow where
  id : UUID
  tags : List Nat
  related_ids : List UUID
deriving DecidableEq, Repr

def tagRow0 : TagRow := ⟨0, [5], [7]⟩

/-- Claim C10 counterexample: with the one-row store `[tagRow0]`, a select
qualified by `AnyFromListFilter` (or `RelatedEntityFilter`) with an empty
value list returns the row — the empty `or_()` compiles to no SQL condition,
so the filter restricts nothing — and the filter-qualified delete removes the
row; the claim says such a query returns (or deletes) nothing. -/
theorem emptyAnyFromList_matches_row :
    runSelect (({} : SelectStmt TagRow).whereAdd
        (AnyFromListFilter.mk TagRow.tags ([] : List Nat)).clause) [tagRow0] = [tagRow0]
    ∧ runSelect (({} : SelectStmt TagRow).whereAdd
        (RelatedEntityFilter.mk TagRow.related_ids []).clause) [tagRow0] = [tagRow0]
    ∧ runDelete (({} : DeleteStmt TagRow).whereAdd
        (AnyFromListFilter.mk TagRow.tags ([] : List Nat)).clause) [tagRow0] = []
    ∧ runDelete (({} : DeleteStmt TagRow).whereAdd
        (RelatedEntityFilter.mk TagRow.related_ids []).clause) [tagRow0] = [] := by
  decide

/-- Claim C10 amended: `AnyFromListFilter` / `RelatedEntityFilter` with an
empty value list builds `or_()` over zero conditions, which SQLAlchemy
renders as no SQL condition at all; the filter is therefore a no-op that
matches every row — a qualified select returns all rows and a qualified
delete deletes all rows, rather than matching none. -/
theorem emptyValueList_filter_is_noop {E : Type}
    (field : E → List Nat) (relField : E → List UUID) (rows : List E) :
    runSelect (({} : SelectStmt E).whereAdd
        (AnyFromListFilter.mk field ([] : List Nat)).clause) rows = rows
    ∧ runSelect (({} : SelectStmt E).whereAdd
        (RelatedEntityFilter.mk relField []).clause) rows = rows
    ∧ runDelete (({} : DeleteStmt E).whereAdd
        (AnyFromListFilter.mk field ([] : List Nat)).clause) rows = []
    ∧ runDelete (({} : DeleteStmt E).whereAdd
        (RelatedEntityFilter.mk relField []).clause) rows = [] := by
  refine ⟨?_, ?_, ?_, ?_⟩ <;>
    simp [runSelect, runDelete, SelectStmt.whereAdd, DeleteStmt.whereAdd, matchesWheres,
      AnyFromListFilter.clause, RelatedEntityFilter.clause, BoolClause.holds]

/-- Claim C3: for every existing row and every `UserUpdate` with exactly one
field set, the executed UPDATE rewrites exactly that field plus the
last-modified audit columns (`last_modified_by_user_id` to the acting user,
`last_modified_date` re-stamped by its `onupdate` default); every other
column keeps its prior value — including string fields whose `UserUpdate`
defaults are empty strings — and rows with a different id are untouched. -/
theorem crud_update_single_field_frame
    (u : UserUpdate) (user_id : String) (now : Nat) (e : UserEntity)
    (h : u.model_dump_exclude_unset.setCount = 1) :
    (∀ v, u.model_dump_exclude_unset = ⟨some v, none, none, none, none⟩ →
      updateValues u.model_dump_exclude_unset user_id now e
        = { e with
              first_name := v
              last_modified_by_user_id := user_id
              last_modified_date := some now })
    ∧ (∀ v, u.model_dump_exclude_unset = ⟨none, some v, none, none, none⟩ →
      updateValues u.model_dump_exclude_unset user_id now e
        = { e with
              last_name := v
              last_modified_by_user_id := user_id
              last_modified_date := some now })
    ∧ (∀ v, u.model_dump_exclude_unset = ⟨none, none, some v, none, none⟩ →
      updateValues u.model_dump_exclude_unset user_id now e
        = { e with
              username := v
              last_modified_by_user_id := user_id
              last_modified_date := some now })
    ∧ (∀ v, u.model_dump_exclude_unset = ⟨none, none, none, some v, none⟩ →
      updateValues u.model_dump_exclude_unset user_id now e
        = { e with
              email := v
              last_modified_by_user_id := user_id
              last_modified_date := some now })
    ∧ (∀ v, u.model_dump_exclude_unset = ⟨none, none, none, none, some v⟩ →
      updateValues u.model_dump_exclude_unset user_id now e
        = { e with
              is_active := v
              last_modified_by_user_id := user_id
              last_modified_date := some now })
    ∧ (∀ (rows : List UserEntity) (r : UserEntity), r ∈ rows → r.id ≠ e.id →
        r ∈ Crud.update_rows rows e.id u user_id now) := by
  refine ⟨?_, ?_, ?_, ?_, ?_, ?_⟩
  · intro v hv; simp [updateValues, hv]
  · intro v hv; simp [updateValues, hv]
  · intro v hv; simp [updateValues, hv]
  · intro v hv; simp [updateValues, hv]
  · intro v hv; simp [updateValues, hv]
  · intro rows r hr hne
    unfold Crud.update_rows
    exact List.mem_map.mpr ⟨r, hr, by simp [hne]⟩

/-- Witness for C3: the update model setting only `first_name` (its other
string fields still carrying the default `""`) rewrites exactly `first_name`
and the last-modified audit columns of a concrete row. -/
theorem crud_update_single_field_frame_witness :
    ({ first_name := "c", fields_set := ["first_name"] }
        : UserUpdate).model_dump_exclude_unset.setCount = 1
    ∧ updateValues ({ first_name := "c", fields_set := ["first_name"] }
          : UserUpdate).model_dump_exclude_unset "editor" 9
        ⟨1, "a", "b", "u", "m", true, some 3, some 4, "creator", "creator"⟩
      = { (⟨1, "a", "b", "u", "m", true, some 3, some 4, "creator", "creator"⟩ : UserEntity) with
            first_name := "c"
            last_modified_by_user_id := "editor"
            last_modified_date := some 9 } :=
  ⟨by decide,
    (crud_update_single_field_frame
        { first_name := "c", fields_set := ["first_name"] } "editor" 9
        ⟨1, "a", "b", "u", "m", true, some 3, some 4, "creator", "creator"⟩
        (by decide)).1 "c" (by decide)⟩

def userCreate0 : UserCreate := ⟨"Ada", "Lovelace", "ada", "ada@example.com", true⟩

/-- Claim C9 counterexample: two successive invocations of `to_user_entity`
with identical `(createInput, userId)` arguments yield different entities —
each call draws a fresh `uuid.uuid4()` for `id` — and the call advances the
uuid generator, so invocation is not free of observable effects either. -/
theorem to_user_entity_not_deterministic :
    (to_user_entity_call ⟨0⟩ userCreate0 "creator").1
      ≠ (to_user_entity_call (to_user_entity_call ⟨0⟩ userCreate0 "creator").2
          userCreate0 "creator").1
    ∧ (to_user_entity_call ⟨0⟩ userCreate0 "creator").2 ≠ ⟨0⟩ := by
  decide

/-- Claim C9 amended: `to_user_entity` is a pure construction apart from the
freshly drawn random id: two invocations with the same `(createInput,
userId)` produce entities that agree on every field except `id`, whose values
are the two distinct fresh draws, and the only state the call touches is the
uuid generator. -/
theorem to_user_entity_pure_up_to_fresh_id (g : UuidGen) (m : UserCreate) (uid : String) :
    (to_user_entity_call g m uid).1.id
        ≠ (to_user_entity_call (to_user_entity_call g m uid).2 m uid).1.id
    ∧ (to_user_entity_call g m uid).1.first_name
        = (to_user_entity_call (to_user_entity_call g m uid).2 m uid).1.first_name
    ∧ (to_user_entity_call g m uid).1.last_name
        = (to_user_entity_call (to_user_entity_call g m uid).2 m uid).1.last_name
    ∧ (to_user_entity_call g m uid).1.username
        = (to_user_entity_call (to_user_entity_call g m uid).2 m uid).1.username
    ∧ (to_user_entity_call g m uid).1.email
        = (to_user_entity_call (to_user_entity_call g m uid).2 m uid).1.email
    ∧ (to_user_entity_call g m uid).1.is_active
        = (to_user_entity_call (to_user_entity_call g m uid).2 m uid).1.is_active
    ∧ (to_user_entity_call g m uid).1.created_date
        = (to_user_entity_call (to_user_entity_call g m uid).2 m uid).1.created_date
    ∧ (to_user_entity_call g m uid).1.last_modified_date
        = (to_user_entity_call (to_user_entity_call g m uid).2 m uid).1.last_modified_date
    ∧ (to_user_entity_call g m uid).1.created_by_user_id
        = (to_user_entity_call (to_user_entity_call g m uid).2 m uid).1.created_by_user_id
    ∧ (to_user_entity_call g m uid).1.last_modified_by_user_id
        = (to_user_entity_call (to_user_entity_call g m uid).2 m uid).1.last_modified_by_user_id
    ∧ ∀ (u : UUID), to_user_entity u m uid = to_user_entity u m uid := by
  refine ⟨?_, rfl, rfl, rfl, rfl, rfl, rfl, rfl, rfl, rfl, fun _ => rfl⟩
  simp [to_user_entity_call, to_user_entity, UuidGen.next]

/-! ### Pagination lemmas -/

theorem insertLe_perm (le : E → E → Bool) (a : E) (l : List E) :
    (insertLe le a l).Perm (a :: l) := by
  induction l with
  | nil => simp [insertLe]
  | cons b bs ih =>
    by_cases hb : le a b
    · simp [insertLe, hb]
    · simp only [insertLe, hb, if_neg]
      exact ((ih.cons b).trans (List.Perm.swap a b bs)).symm.symm

theorem orderByLe_perm (le : E → E → Bool) (l : List E) :
    (orderByLe le l).Perm l := by
  induction l with
  | nil => simp [orderByLe]
  | cons a as ih =>
    exact (insertLe_perm le a (orderByLe le as)).trans (ih.cons a)

/-- A statement without LIMIT and OFFSET returns a permutation of the rows
matching its WHERE criteria. -/
theorem runSelect_no_pagination_perm (w : List (BoolClause E))
    (ord : Option (E → E → Bool)) (rows : List E) :
    (runSelect { wheres := w, order := ord, limit := none, offset := none } rows).Perm
      (rows.filter (matchesWheres w)) := by
  cases ord with
  | none => simp [runSelect]
  | some le => simpa [runSelect] using orderByLe_perm le (rows.filter (matchesWheres w))

/-- Characterization of `Crud._apply_params`: it either fails on an
unresolvable sort name, or yields a data statement carrying exactly the
filters, some ORDER BY, and — unless pagination is omitted — LIMIT
`page_size` / OFFSET `calculate_offset`, together with a count statement
carrying exactly the filters and no pagination. -/
theorem apply_params_characterization (meta : EntityMeta E) (pn ps : Nat)
    (omitPag : Bool) (filters : List (BoolClause E)) (sort_by : Option String)
    (dir : SortDirection) :
    Crud.apply_params meta {} {} pn ps omitPag filters sort_by dir = none
    ∨ ∃ ord : Option (E → E → Bool),
        Crud.apply_params meta {} {} pn ps omitPag filters sort_by dir
          = some ({ wheres := filters, order := ord,
                    limit := if omitPag then none else some ps,
                    offset := if omitPag then none else some (calculate_offset pn ps) },
                  { wheres := filters, order := none, limit := none, offset := none }) := by
  cases sort_by with
  | none =>
    right
    refine ⟨none, ?_⟩
    cases omitPag <;> rfl
  | some s =>
    by_cases hs : s = ""
    · right
      refine ⟨none, ?_⟩
      cases omitPag <;> simp [Crud.apply_params, hs]
    · cases hattr : meta.attr (to_snake s) with
      | none =>
        left
        cases omitPag <;> simp [Crud.apply_params, hs, hattr]
      | some cmp =>
        right
        refine ⟨some (sortLe cmp dir), ?_⟩
        cases omitPag <;> simp [Crud.apply_params, hs, hattr]

/-- With `omit_pagination = true`, `_apply_params` ignores the page
parameters entirely. -/
theorem apply_params_omit_ignores_page (meta : EntityMeta E) (pn ps pn' ps' : Nat)
    (filters : List (BoolClause E)) (sort_by : Option String) (dir : SortDirection) :
    Crud.apply_params meta {} {} pn ps true filters sort_by dir
      = Crud.apply_params meta {} {} pn' ps' true filters sort_by dir := by
  cases sort_by with
  | none => rfl
  | some s => rfl

/-- A statement with LIMIT `l` returns at most `l` rows. -/
theorem runSelect_limit_length_le (w : List (BoolClause E))
    (ord : Option (E → E → Bool)) (off l : Nat) (rows : List E) :
    (runSelect { wheres := w, order := ord, limit := some l, offset := some off } rows).length
      ≤ l := by
  cases ord <;> · simp only [runSelect]
                  exact List.length_take_le _ _

/-- Claim C4: for every `pageNumber ≥ 1` and `pageSize ≥ 1`,
`Crud.get_by_page` with `omit_pagination = false` puts LIMIT `pageSize` and
OFFSET `(pageNumber − 1) · pageSize` on the data statement only, so it
returns at most `pageSize` entities while `totalCount` equals the number of
rows matching the filters regardless of the page parameters; with
`omit_pagination = true` the success payload ignores the page parameters
entirely and holds every matching row. -/
theorem get_by_page_pagination (meta : EntityMeta E) (rows : List E)
    (page_number page_size : Nat) (filters : List (BoolClause E))
    (sort_by : Option String) (dir : SortDirection)
    (h1 : 1 ≤ page_number) (h2 : 1 ≤ page_size) :
    (∀ stmt count_stmt,
      Crud.apply_params meta {} {} page_number page_size false filters sort_by dir
          = some (stmt, count_stmt) →
        stmt.limit = some page_size
        ∧ stmt.offset = some (calculate_offset page_number page_size)
        ∧ count_stmt.limit = none ∧ count_stmt.offset = none
        ∧ stmt.wheres = filters ∧ count_stmt.wheres = filters)
    ∧ (∀ items total,
      Crud.get_by_page meta rows page_number page_size false filters sort_by dir
          = .ok (items, total) →
        items.length ≤ page_size
        ∧ total = (rows.filter (matchesWheres filters)).length)
    ∧ ((Crud.get_by_page meta rows page_number page_size true filters sort_by dir).toOption
        = (Crud.get_by_page meta rows 1 1 true filters sort_by dir).toOption)
    ∧ (∀ items total,
      Crud.get_by_page meta rows page_number page_size true filters sort_by dir
          = .ok (items, total) →
        items.Perm (rows.filter (matchesWheres filters))
        ∧ total = (rows.filter (matchesWheres filters)).length) := by
  have hchar := apply_params_characterization meta page_number page_size false filters sort_by dir
  have hchar1 := apply_params_characterization meta page_number page_size true filters sort_by dir
  have hchar2 := apply_params_characterization meta 1 1 true filters sort_by dir
  refine ⟨?_, ?_, ?_, ?_⟩
  · intro stmt count_stmt hsome
    rcases hchar with hnone | ⟨ord, heq⟩
    · rw [hnone] at hsome; cases hsome
    · rw [heq] at hsome
      injection hsome with h12
      injection h12 with hstmt hcount
      subst hstmt; subst hcount
      simp
  · intro items total hok
    rcases hchar with hnone | ⟨ord, heq⟩
    · unfold Crud.get_by_page at hok
      rw [hnone] at hok; cases hok
    · unfold Crud.get_by_page at hok
      rw [heq] at hok
      injection hok with hpair
      injection hpair with hitems htotal
      subst hitems; subst htotal
      exact ⟨runSelect_limit_length_le filters ord _ page_size rows, rfl⟩
  · unfold Crud.get_by_page
    rw [apply_params_omit_ignores_page meta page_number page_size 1 1 filters sort_by dir]
    rcases hchar2 with hnone2 | ⟨ord2, heq2⟩
    · rw [hnone2]
      rfl
    · rw [heq2]
  · intro items total hok
    rcases hchar1 with hnone | ⟨ord, heq⟩
    · unfold Crud.get_by_page at hok
      rw [hnone] at hok; cases hok
    · unfold Crud.get_by_page at hok
      rw [heq] at hok
      injection hok with hpair
      injection hpair with hitems htotal
      subst hitems; subst htotal
      exact ⟨runSelect_no_pagination_perm filters ord rows, rfl⟩

def userEnt1 : UserEntity := ⟨1, "a", "a", "a", "a", true, some 1, some 1, "s", "s"⟩
def userEnt2 : UserEntity := ⟨2, "b", "b", "b", "b", false, some 2, some 2, "s", "s"⟩

/-- Witness for C4 on a concrete two-row store with `pageNumber = 2`,
`pageSize = 1`. -/
theorem get_by_page_pagination_witness :
    (1 : Nat) ≤ 2 ∧ (1 : Nat) ≤ 1
    ∧ ((∀ stmt count_stmt,
      Crud.apply_params userMeta {} {} 2 1 false [] none SortDirection.ascending
          = some (stmt, count_stmt) →
        stmt.limit = some 1
        ∧ stmt.offset = some (calculate_offset 2 1)
        ∧ count_stmt.limit = none ∧ count_stmt.offset = none
        ∧ stmt.wheres = [] ∧ count_stmt.wheres = [])
    ∧ (∀ items total,
      Crud.get_by_page userMeta [userEnt1, userEnt2] 2 1 false [] none SortDirection.ascending
          = .ok (items, total) →
        items.length ≤ 1
        ∧ total = ([userEnt1, userEnt2].filter (matchesWheres [])).length)
    ∧ ((Crud.get_by_page userMeta [userEnt1, userEnt2] 2 1 true [] none
          SortDirection.ascending).toOption
        = (Crud.get_by_page userMeta [userEnt1, userEnt2] 1 1 true [] none
            SortDirection.ascending).toOption)
    ∧ (∀ items total,
      Crud.get_by_page userMeta [userEnt1, userEnt2] 2 1 true [] none SortDirection.ascending
          = .ok (items, total) →
        items.Perm ([userEnt1, userEnt2].filter (matchesWheres []))
        ∧ total = ([userEnt1, userEnt2].filter (matchesWheres [])).length)) :=
  ⟨by decide, by decide,
    get_by_page_pagination userMeta [userEnt1, userEnt2] 2 1 [] none SortDirection.ascending
      (by decide) (by decide)⟩

/-! ### Sort-name spellings (claim C7) -/

/-- camelCase spelling of each column's logical name. -/
def UserField.camelName : UserField → String
  | .id => "id"
  | .first_name => "firstName"
  | .last_name => "lastName"
  | .username => "username"
  | .email => "email"
  | .is_active => "isActive"
  | .created_date => "createdDate"
  | .last_modified_date => "lastModifiedDate"
  | .created_by_user_id => "createdByUserId"
  | .last_modified_by_user_id => "lastModifiedByUserId"

/-- kebab-case spelling of each column's logical name. -/
def UserField.kebabName : UserField → String
  | .id => "id"
  | .first_name => "first-name"
  | .last_name => "last-name"
  | .username => "username"
  | .email => "email"
  | .is_active => "is-active"
  | .created_date => "created-date"
  | .last_modified_date => "last-modified-date"
  | .created_by_user_id => "created-by-user-id"
  | .last_modified_by_user_id => "last-modified-by-user-id"

/-- PascalCase spelling of each column's logical name. -/
def UserField.pascalName : UserField → String
  | .id => "Id"
  | .first_name => "FirstName"
  | .last_name => "LastName"
  | .username => "Username"
  | .email => "Email"
  | .is_active => "IsActive"
  | .created_date => "CreatedDate"
  | .last_modified_date => "LastModifiedDate"
  | .created_by_user_id => "CreatedByUserId"
  | .last_modified_by_user_id => "LastModifiedByUserId"

/-- The result of `get_by_page` depends on a non-empty `sort_by` string only through
`to_snake` of it. -/
theorem get_by_page_sort_spelling_congr (meta : EntityMeta E) (rows : List E)
    (pn ps : Nat) (omitPag : Bool) (filters : List (BoolClause E))
    (dir : SortDirection) (s1 s2 : String)
    (hsnake : to_snake s1 = to_snake s2) (h1 : s1 ≠ "") (h2 : s2 ≠ "") :
    Crud.get_by_page meta rows pn ps omitPag filters (some s1) dir
      = Crud.get_by_page meta rows pn ps omitPag filters (some s2) dir := by
  unfold Crud.get_by_page Crud.apply_params
  simp only [h1, h2, hsnake, ne_eq, not_false_eq_true, if_true]

/-- Claim C7: for every sortable `UserEntity` column, `get_by_page` called
with `sort_by` in any of the camelCase, snake_case, kebab-case or PascalCase
spellings of the column's logical name resolves to the same column —
`to_snake` maps each spelling to the declared attribute name — and produces
the same result as the snake_case spelling, for every store, page setting,
filter set and sort direction (ascending by default, descending when
requested). -/
theorem sort_by_spelling_insensitive (f : UserField) (sp : String)
    (hsp : sp ∈ [f.snakeName, f.camelName, f.kebabName, f.pascalName]) :
    to_snake sp = f.snakeName
    ∧ ∀ (rows : List UserEntity) (pn ps : Nat) (omitPag : Bool)
        (filters : List (BoolClause UserEntity)) (dir : SortDirection),
        Crud.get_by_page userMeta rows pn ps omitPag filters (some sp) dir
          = Crud.get_by_page userMeta rows pn ps omitPag filters (some f.snakeName) dir := by
  have hconj : to_snake sp = f.snakeName ∧ sp ≠ "" ∧ f.snakeName ≠ "" := by
    simp only [List.mem_cons, List.not_mem_nil, or_false] at hsp
    cases f <;> rcases hsp with rfl | rfl | rfl | rfl <;> exact ⟨by decide, by decide, by decide⟩
  refine ⟨hconj.1, fun rows pn ps omitPag filters dir => ?_⟩
  have hsnake : to_snake sp = to_snake f.snakeName := by
    rw [hconj.1]
    cases f <;> decide
  exact get_by_page_sort_spelling_congr userMeta rows pn ps omitPag filters dir sp f.snakeName
    hsnake hconj.2.1 hconj.2.2

/-- Witness for C7: sorting by `"firstName"` equals sorting by
`"first_name"` on a concrete store. -/
theorem sort_by_spelling_insensitive_witness :
    "firstName" ∈ [UserField.first_name.snakeName, UserField.first_name.camelName,
      UserField.first_name.kebabName, UserField.first_name.pascalName]
    ∧ Crud.get_by_page userMeta [userEnt1, userEnt2] 1 10 false [] (some "firstName")
        SortDirection.descending
      = Crud.get_by_page userMeta [userEnt1, userEnt2] 1 10 false [] (some "first_name")
        SortDirection.descending :=
  ⟨by decide,
    (sort_by_spelling_insensitive .first_name "firstName" (by decide)).2
      [userEnt1, userEnt2] 1 10 false [] SortDirection.descending⟩

/-! ### Service-layer totality and error translation (claims C1, C5, C6, C2) -/

/-- Every class of the crud exception hierarchy is an instance of the generic
class the service layer's `except CrudException` clause catches. -/
theorem isSubclassOf_crudError (c : CrudErrorClass) : c.isSubclassOf .crudError = true := by
  cases c <;> rfl

/-- The service operation returned an outcome (no exception escaped), and the
outcome is a success value or an error of one of the four service kinds. -/
def returnsOutcome (r : ServiceOutcome α) : Prop :=
  ∃ res : Result α ErrorResult, r = .ok res ∧
    ((∃ v, res = .Ok v)
      ∨ ∃ er, res = .Err er
          ∧ (er.status = .NOT_FOUND_ERROR ∨ er.status = .BAD_REQUEST
              ∨ er.status = .CONFLICT ∨ er.status = .INTERNAL_ERROR))

/-- Claim C1: every `BaseService` operation — `get_page`, `get_by_id`,
`create`, `update`, `delete`, `entity_exists` — returns exactly one outcome
for every input and every result of the crud calls it delegates to: `Ok` with
the success payload, or `Err` with an `ErrorResult` whose status is one of
NotFound, BadRequest, Conflict, InternalError; no crud-layer or store
exception escapes, because every crud failure is an instance of the generic
class each operation's catch-all clause handles. -/
theorem service_operations_return_outcomes (cfg : BaseServiceCfg M)
    (page_result : Except CrudExc (List UserEntity × Nat))
    (fetch_result : Except CrudExc (Option UserEntity))
    (create_result : Except CrudExc UserEntity)
    (exists_resultU exists_resultD exists_resultE : Except CrudExc Bool)
    (update_result : Except CrudExc (UserEntity × List UserEntity))
    (delete_result : Except CrudExc (List UserEntity)) (entity_id : UUID) :
    returnsOutcome (BaseService.get_page cfg page_result)
    ∧ returnsOutcome (BaseService.get_by_id cfg entity_id fetch_result)
    ∧ returnsOutcome (BaseService.create cfg create_result)
    ∧ returnsOutcome (BaseService.update cfg entity_id exists_resultU update_result)
    ∧ returnsOutcome (BaseService.delete cfg entity_id exists_resultD delete_result)
    ∧ returnsOutcome (BaseService.entity_exists cfg entity_id exists_resultE) := by
  have herr : ∀ (α : Type) (e : CrudExc),
      (if e.cls.isSubclassOf .crudError = true
        then (Except.ok (.Err ⟨.INTERNAL_ERROR, e.msg⟩) : ServiceOutcome α)
        else .error e)
      = .ok (.Err ⟨.INTERNAL_ERROR, e.msg⟩) := by
    intro α e
    rw [if_pos (isSubclassOf_crudError e.cls)]
  have hfour : ∀ s : ErrorStatus,
      s = .NOT_FOUND_ERROR ∨ s = .BAD_REQUEST ∨ s = .CONFLICT ∨ s = .INTERNAL_ERROR := by
    intro s
    cases s
    · exact .inl rfl
    · exact .inr (.inl rfl)
    · exact .inr (.inr (.inl rfl))
    · exact .inr (.inr (.inr rfl))
  refine ⟨?_, ?_, ?_, ?_, ?_, ?_⟩
  · cases page_result with
    | error e =>
      refine ⟨.Err ⟨.INTERNAL_ERROR, e.msg⟩, ?_, .inr ⟨_, rfl, hfour _⟩⟩
      simpa [BaseService.get_page] using herr (ModelList M) e
    | ok v =>
      obtain ⟨entities, total⟩ := v
      exact ⟨.Ok ⟨entities.map cfg.model_validate, total⟩, rfl, .inl ⟨_, rfl⟩⟩
  · cases fetch_result with
    | error e =>
      refine ⟨.Err ⟨.INTERNAL_ERROR, e.msg⟩, ?_, .inr ⟨_, rfl, hfour _⟩⟩
      simpa [BaseService.get_by_id] using herr M e
    | ok v =>
      cases v with
      | none => exact ⟨.Err _, rfl, .inr ⟨_, rfl, hfour _⟩⟩
      | some e => exact ⟨.Ok (cfg.model_validate e), rfl, .inl ⟨_, rfl⟩⟩
  · cases create_result with
    | error e =>
      by_cases hu : e.cls.isSubclassOf .crudUniqueValidationError = true
      · refine ⟨.Err ⟨.CONFLICT, build_create_crud_unique_validation_error_msg cfg⟩,
          ?_, .inr ⟨_, rfl, hfour _⟩⟩
        simp [BaseService.create, hu]
      · refine ⟨.Err ⟨.INTERNAL_ERROR, e.msg⟩, ?_, .inr ⟨_, rfl, hfour _⟩⟩
        simp [BaseService.create, hu, isSubclassOf_crudError]
    | ok e => exact ⟨.Ok (cfg.model_validate e), rfl, .inl ⟨_, rfl⟩⟩
  · cases exists_resultU with
    | error e =>
      refine ⟨.Err ⟨.INTERNAL_ERROR, e.msg⟩, ?_, .inr ⟨_, rfl, hfour _⟩⟩
      simp [BaseService.update, isSubclassOf_crudError]
    | ok b =>
      cases b with
      | false => exact ⟨.Err _, rfl, .inr ⟨_, rfl, hfour _⟩⟩
      | true =>
        cases update_result with
        | error e =>
          by_cases hu : e.cls.isSubclassOf .crudUniqueValidationError = true
          · refine ⟨.Err ⟨.CONFLICT,
              build_update_crud_unique_validation_error_msg cfg entity_id⟩,
              ?_, .inr ⟨_, rfl, hfour _⟩⟩
            simp [BaseService.update, hu]
          · refine ⟨.Err ⟨.INTERNAL_ERROR, e.msg⟩, ?_, .inr ⟨_, rfl, hfour _⟩⟩
            simp [BaseService.update, hu, isSubclassOf_crudError]
        | ok v =>
          obtain ⟨e, rest⟩ := v
          exact ⟨.Ok (cfg.model_validate e), rfl, .inl ⟨_, rfl⟩⟩
  · cases exists_resultD with
    | error e =>
      refine ⟨.Err ⟨.INTERNAL_ERROR, e.msg⟩, ?_, .inr ⟨_, rfl, hfour _⟩⟩
      simp [BaseService.delete, isSubclassOf_crudError]
    | ok b =>
      cases b with
      | false => exact ⟨.Err _, rfl, .inr ⟨_, rfl, hfour _⟩⟩
      | true =>
        cases delete_result with
        | error e =>
          refine ⟨.Err ⟨.INTERNAL_ERROR, e.msg⟩, ?_, .inr ⟨_, rfl, hfour _⟩⟩
          simp [BaseService.delete, isSubclassOf_crudError]
        | ok _ => exact ⟨.Ok (), rfl, .inl ⟨_, rfl⟩⟩
  · cases exists_resultE with
    | error e =>
      refine ⟨.Err ⟨.INTERNAL_ERROR, e.msg⟩, ?_, .inr ⟨_, rfl, hfour _⟩⟩
      simp [BaseService.entity_exists, isSubclassOf_crudError]
    | ok b =>
      cases b with
      | false => exact ⟨.Err _, rfl, .inr ⟨_, rfl, hfour _⟩⟩
      | true => exact ⟨.Ok (), rfl, .inl ⟨_, rfl⟩⟩

/-- Claim C5: for every id matching no row, the service operations `update`,
`delete`, `entity_exists` and `get_by_id` each return `Err(NotFoundError)`
whose details are the formatted `"{model_class} with id {id} not found"`
message — for the user service, `"User with id <id> not found"`; `update` and
`delete` obtain the signal from the `Crud.entity_exists` pre-check and
short-circuit before delegating, whatever the delegated crud call would have
returned. -/
theorem service_not_found_on_missing_id (cfg : BaseServiceCfg M) (entityName : String)
    (ids : List UUID) (rows : List UserEntity) (entity_id : UUID)
    (hids : ids.contains entity_id = false)
    (hrows : ∀ r ∈ rows, r.id ≠ entity_id) :
    (∀ update_result, BaseService.update cfg entity_id
        (Crud.entity_exists entityName ids none entity_id) update_result
      = .ok (.Err ⟨.NOT_FOUND_ERROR,
          get_by_id_not_found_msg cfg.model_class_name (toString entity_id)⟩))
    ∧ (∀ delete_result, BaseService.delete cfg entity_id
        (Crud.entity_exists entityName ids none entity_id) delete_result
      = .ok (.Err ⟨.NOT_FOUND_ERROR,
          get_by_id_not_found_msg cfg.model_class_name (toString entity_id)⟩))
    ∧ (BaseService.entity_exists cfg entity_id
        (Crud.entity_exists entityName ids none entity_id)
      = .ok (.Err ⟨.NOT_FOUND_ERROR,
          get_by_id_not_found_msg cfg.model_class_name (toString entity_id)⟩))
    ∧ (BaseService.get_by_id cfg entity_id
        (Crud.get_by_id entityName rows none entity_id)
      = .ok (.Err ⟨.NOT_FOUND_ERROR,
          get_by_id_not_found_msg cfg.model_class_name (toString entity_id)⟩))
    ∧ get_by_id_not_found_msg userServiceCfg.model_class_name (toString entity_id)
      = "User with id " ++ toString entity_id ++ " not found" := by
  have hex : Crud.entity_exists entityName ids none entity_id = .ok false := by
    show Except.ok (ids.contains entity_id) = Except.ok false
    rw [hids]
  have hfind : rows.find? (fun e => e.id = entity_id) = none := by
    rw [List.find?_eq_none]
    intro r hr
    simpa using hrows r hr
  have hfetch : Crud.get_by_id entityName rows none entity_id = .ok none := by
    show Except.ok (rows.find? fun e => e.id = entity_id) = Except.ok none
    rw [hfind]
  refine ⟨?_, ?_, ?_, ?_, rfl⟩
  · intro update_result
    rw [hex]
    rfl
  · intro delete_result
    rw [hex]
    rfl
  · rw [hex]
    rfl
  · rw [hfetch]
    rfl

/-- Witness for C5: the user service on an empty store and id 7. -/
theorem service_not_found_on_missing_id_witness :
    ([] : List UUID).contains 7 = false
    ∧ (∀ r ∈ ([] : List UserEntity), r.id ≠ 7)
    ∧ BaseService.entity_exists userServiceCfg 7 (Crud.entity_exists "UserEntity" [] none 7)
      = .ok (.Err ⟨.NOT_FOUND_ERROR, "User with id 7 not found"⟩)
    ∧ BaseService.update userServiceCfg 7 (Crud.entity_exists "UserEntity" [] none 7)
        (.error ⟨.crudError, "boom"⟩)
      = .ok (.Err ⟨.NOT_FOUND_ERROR, "User with id 7 not found"⟩)
    ∧ BaseService.get_by_id userServiceCfg 7 (Crud.get_by_id "UserEntity" [] none 7)
      = .ok (.Err ⟨.NOT_FOUND_ERROR, "User with id 7 not found"⟩) :=
  ⟨by decide, by simp,
    (service_not_found_on_missing_id userServiceCfg "UserEntity" [] [] 7 (by decide)
        (by simp)).2.2.1,
    (service_not_found_on_missing_id userServiceCfg "UserEntity" [] [] 7 (by decide)
        (by simp)).1 (.error ⟨.crudError, "boom"⟩),
    (service_not_found_on_missing_id userServiceCfg "UserEntity" [] [] 7 (by decide)
        (by simp)).2.2.2.1⟩

/-- Claim C6 evidence: on an `IntegrityError` whose orig is the asyncpg
driver's `UniqueViolationError` — the driver configured in
`src/config/config.py` and the orig the repository's own test
`test_create__crud_unique_validation_error` feeds to `create`, which expects
`CrudUniqueValidationError` — `Crud.create` raises `CrudIntegrityError`
instead (the `isinstance` check only recognises psycopg2's
`UniqueViolation`), and the service layer maps it to `Err(InternalError)`
rather than `Err(ConflictError)`; with a psycopg2 orig the claimed
classification does hold, as it does for other integrity errors and other
faults. -/
theorem unique_violation_driver_mismatch :
    Crud.create "UserEntity" "m0" (some (.integrityError .asyncpgUniqueViolationError)) userEnt1
      = .error ⟨.crudIntegrityError,
          "Failed to create new entity UserEntity with params: create_model=m0 due to IntegrityError"⟩
    ∧ BaseService.create userServiceCfg
        (Crud.create "UserEntity" "m0" (some (.integrityError .asyncpgUniqueViolationError)) userEnt1)
      = .ok (.Err ⟨.INTERNAL_ERROR,
          "Failed to create new entity UserEntity with params: create_model=m0 due to IntegrityError"⟩)
    ∧ Crud.create "UserEntity" "m0" (some (.integrityError .psycopg2UniqueViolation)) userEnt1
      = .error ⟨.crudUniqueValidationError,
          "Failed to create new entity UserEntity with params: create_model=m0 due to IntegrityError"⟩
    ∧ BaseService.create userServiceCfg
        (Crud.create "UserEntity" "m0" (some (.integrityError .psycopg2UniqueViolation)) userEnt1)
      = .ok (.Err ⟨.CONFLICT,
          "Failed to create new User - User with given username or email already exists"⟩)
    ∧ Crud.create "UserEntity" "m0" (some (.integrityError .otherDriverError)) userEnt1
      = .error ⟨.crudIntegrityError,
          "Failed to create new entity UserEntity with params: create_model=m0 due to IntegrityError"⟩
    ∧ Crud.create "UserEntity" "m0" (some .otherExc) userEnt1
      = .error ⟨.crudError,
          "Failed to create new entity UserEntity with params: create_model=m0"⟩
    ∧ BaseService.create userServiceCfg
        (Crud.create "UserEntity" "m0" (some .otherExc) userEnt1)
      = .ok (.Err ⟨.INTERNAL_ERROR,
          "Failed to create new entity UserEntity with params: create_model=m0"⟩) := by
  exact ⟨rfl, rfl, rfl, rfl, rfl, rfl, rfl⟩

/-- Claim C2 evidence: the hierarchy declared in `exceptions.py` is exactly
the claimed three-kind taxonomy — `CrudIntegrityError` a subclass of
`CrudError`, `CrudUniqueValidationError` a subclass of `CrudIntegrityError`
and hence of `CrudError` — but the name `CrudException`, which crud.py and
base_service.py import from `src.utils.exceptions` and under which crud.py
raises the generic kind, is no longer bound by that module (its comment
records the rename to `CrudError`), so importing the Crud layer fails before
any operation can raise at all. -/
theorem crud_exception_rename_mismatch :
    CrudErrorClass.base? .crudIntegrityError = some .crudError
    ∧ CrudErrorClass.base? .crudUniqueValidationError = some .crudIntegrityError
    ∧ CrudErrorClass.isSubclassOf .crudIntegrityError .crudError = true
    ∧ CrudErrorClass.isSubclassOf .crudUniqueValidationError .crudIntegrityError = true
    ∧ CrudErrorClass.isSubclassOf .crudUniqueValidationError .crudError = true
    ∧ "CrudException" ∈ crudImportedExceptionNames
    ∧ "CrudException" ∈ baseServiceImportedExceptionNames
    ∧ "CrudException" ∉ exceptionsModuleNames := by
  decide

end Boilerplate
